import Mathlib

/-!
Verification of the wallet-session authentication guard of the
Solana-walletConnect front-end.

The repository has two variants of the `SignAndConnect` component:
* the credential-verified variant (sessionStorage key `authToken`, backend
  `whoAmI` revalidation on mount) — embedded below as `SessState` with
  `verifySession`, `driftCheck`, `handleSignMessage`, `autoSignCondition`,
  `disconnectEffect`, `handleConnect`, `handleDisconnect`;
* the simplified variant (localStorage boolean flag keyed
  `wallet_signed_<address>`) — embedded as `SimpleState` with
  `simpleDisconnectEffect`, `simpleHandleDisconnect`, `simpleHandleSignMessage`.

External collaborators (wallet provider, backend, clock) are modelled as
oracle inputs to each handler: `WhoAmIResult`, `SignOutcome`, `VerifyOutcome`
and the timestamp string produced by `new Date().toISOString()`.
-/

/-- A user record as returned by the backend
(`{ walletAddress, createdAt, lastLoginAt, isNewUser? }`). -/
structure UserRecord where
  walletAddress : String
  createdAt : String
  lastLoginAt : String
  isNewUser : Bool
deriving DecidableEq, Repr

/-- ASCII lower-casing of one character, as `toLowerCase()` acts on the
base58/hex alphabets that wallet addresses use. -/
def charToLower (c : Char) : Char :=
  if 65 ≤ c.toNat && c.toNat ≤ 90 then Char.ofNat (c.toNat + 32) else c

/-- Case-insensitive address comparison, as in the source:
`a.toLowerCase() === b.toLowerCase()`. -/
def lowerEq (a b : String) : Bool :=
  a.data.map charToLower == b.data.map charToLower

/-- The React component state of the credential-verified variant:
`isSigned`, `isLoading`, `balance`, `user`, `authToken` (in-memory), the
sessionStorage `authToken` slot (`store`), and `userDisconnectedRef.current`
(the explicit-disconnect latch). -/
structure SessState where
  isSigned : Bool
  isLoading : Bool
  balance : Option Nat
  user : Option UserRecord
  authToken : Option String
  store : Option String
  userDisconnected : Bool
deriving DecidableEq, Repr

/-- Outcome of the `GET /api/auth/me` (`whoAmI`) call:
OK response with a parsed user, non-OK response, or a thrown
network/parse error. -/
inductive WhoAmIResult where
  | ok (user : UserRecord)
  | notOk
  | thrown
deriving DecidableEq, Repr

/-- Outcome of the wallet `signMessage` call: signature bytes returned, or
the call threw (user rejected in the wallet). -/
inductive SignOutcome where
  | signed (sigBytes : List Nat)
  | rejectedByUser
deriving DecidableEq, Repr

/-- Outcome of the `POST /api/auth/verify` call: a parsed response with
`success: true` carrying the credential and user record (§6: on success the
response contains `token` and `user`), a parsed response with
`success: false` carrying a message, or a thrown network/parse error. -/
inductive VerifyOutcome where
  | success (token : String) (user : UserRecord)
  | rejected (msg : String)
  | thrown
deriving DecidableEq, Repr

/-- The mount/reconnect revalidation effect (source lines 32-80).  Runs only
when connected and the explicit-disconnect latch is clear; inside, acts only
when a token is stored and an address is present.  On an OK `whoAmI` response
with a case-insensitively matching address it adopts the record and marks
signed; on a mismatching record or a non-OK response it purges the stored
token and clears token, signed flag and user; when the call throws it purges
the stored token and clears token and signed flag (the user field is left
as it was). -/
def verifySession (conn : Bool) (addr : Option String) (who : WhoAmIResult)
    (s : SessState) : SessState :=
  if conn && !s.userDisconnected then
    match s.store, addr with
    | some storedToken, some a =>
      match who with
      | .ok u =>
        if lowerEq u.walletAddress a then
          { s with user := some u, isSigned := true, authToken := some storedToken }
        else
          { s with store := none, authToken := none, isSigned := false, user := none }
      | .notOk =>
        { s with store := none, authToken := none, isSigned := false, user := none }
      | .thrown =>
        { s with store := none, authToken := none, isSigned := false }
    | _, _ => s
  else s

/-- The continuous address-drift check (source lines 83-96): while connected,
signed and holding a user record, if the connected address no longer matches
the record's address (case-insensitively) the stored token is purged and the
token, signed flag, user record and balance are cleared. -/
def driftCheck (conn : Bool) (addr : Option String) (s : SessState) : SessState :=
  match addr, s.user with
  | some a, some u =>
    if conn && s.isSigned then
      if lowerEq a u.walletAddress then s
      else
        { s with store := none, authToken := none, isSigned := false,
                 user := none, balance := none }
    else s
  | _, _ => s

/-- The canonical challenge message (source line 126): embeds the literal
wallet address and the `toISOString()` timestamp. -/
def challengeMessage (address now : String) : String :=
  "Sign this message to authenticate with Solana Wallet Connect.\n\nWallet: "
    ++ address ++ "\nTimestamp: " ++ now

/-- UTF-8 bytes of one code point, as produced by `TextEncoder.encode`. -/
def utf8Bytes (c : Nat) : List Nat :=
  if c < 0x80 then [c]
  else if c < 0x800 then
    [0xC0 ||| (c >>> 6), 0x80 ||| (c &&& 0x3F)]
  else if c < 0x10000 then
    [0xE0 ||| (c >>> 12), 0x80 ||| ((c >>> 6) &&& 0x3F), 0x80 ||| (c &&& 0x3F)]
  else
    [0xF0 ||| (c >>> 18), 0x80 ||| ((c >>> 12) &&& 0x3F),
     0x80 ||| ((c >>> 6) &&& 0x3F), 0x80 ||| (c &&& 0x3F)]

/-- UTF-8 encoding of a string (`new TextEncoder().encode(message)`). -/
def utf8Encode (s : String) : List Nat :=
  (s.data.map (fun ch => utf8Bytes ch.toNat)).flatten

/-- The base58 alphabet used by the `bs58` package. -/
def base58Alphabet : List Char :=
  "123456789ABCDEFGHJKLMNPQRSTUVWXYZabcdefghijkmnopqrstuvwxyz".data

/-- Big-endian byte list read as a natural number. -/
def bytesToNat (bs : List Nat) : Nat :=
  bs.foldl (fun acc b => acc * 256 + b % 256) 0

/-- Base-58 digits, least significant first, with a structural fuel bound
(the fuel `n` itself always suffices since `n / 58 < n` for `0 < n`). -/
def natToBase58RevAux : Nat → Nat → List Nat
  | 0, _ => []
  | fuel + 1, n => if n = 0 then [] else (n % 58) :: natToBase58RevAux fuel (n / 58)

/-- Base-58 digits of `n`, least significant first. -/
def natToBase58Rev (n : Nat) : List Nat :=
  natToBase58RevAux n n

/-- `bs58.encode`: leading zero bytes become leading `'1'` characters, the
rest is the base-58 big-endian expansion of the byte string. -/
def bs58encode (bs : List Nat) : String :=
  let lead := (bs.takeWhile (fun b => b == 0)).length
  let digits := (natToBase58Rev (bytesToNat bs)).reverse
  String.mk (List.replicate lead '1' ++ digits.map (fun d => base58Alphabet.getD d '?'))

/-- The JSON body submitted to `POST /api/auth/verify`
(`{walletAddress, message, signature}`). -/
structure VerifyRequest where
  walletAddress : String
  message : String
  signature : String
deriving DecidableEq, Repr

/-- Result of one run of `handleSignMessage`: the new component state, how
many signature requests were issued to the wallet, the byte payload passed to
`signMessage`, the request body submitted to the verify endpoint (if any),
and whether `provider.disconnect()` was invoked. -/
structure SignMsgResult where
  state : SessState
  signAttempts : Nat
  signedPayload : Option (List Nat)
  request : Option VerifyRequest
  providerDisconnectCalled : Bool
deriving DecidableEq, Repr

/-- The signing protocol `handleSignMessage` (source lines 121-187).
Returns immediately when no wallet provider or no address is available.
Otherwise builds the challenge message, requests a signature over its UTF-8
bytes, base58-encodes the signature, posts
`{walletAddress, message, signature}` to the verify endpoint, and adopts
`user`/`token` (persisting the token to the store) only when the response is
marked successful.  A throw anywhere (signature rejection, network failure,
malformed response body) lands in the catch block, which attempts
`provider.disconnect()` when the provider exposes one; `isLoading` is reset
in the `finally`. -/
def handleSignMessage (providerPresent providerHasDisconnect : Bool)
    (addr : Option String) (now : String) (signO : SignOutcome)
    (verO : VerifyOutcome) (s : SessState) : SignMsgResult :=
  if !providerPresent then ⟨s, 0, none, none, false⟩
  else
    match addr with
    | none => ⟨s, 0, none, none, false⟩
    | some a =>
      let msg := challengeMessage a now
      let payload := utf8Encode msg
      match signO with
      | .rejectedByUser =>
        ⟨{ s with isLoading := false }, 1, some payload, none, providerHasDisconnect⟩
      | .signed sig =>
        let req : VerifyRequest := ⟨a, msg, bs58encode sig⟩
        match verO with
        | .success tok u =>
          ⟨{ s with user := some u, authToken := some tok, store := some tok,
                    isSigned := true, isLoading := false },
           1, some payload, some req, false⟩
        | .rejected _ =>
          ⟨{ s with isLoading := false }, 1, some payload, some req, false⟩
        | .thrown =>
          ⟨{ s with isLoading := false }, 1, some payload, some req, providerHasDisconnect⟩

/-- Guard of the automatic sign effect (source lines 189-194): connected,
not signed, provider available, address present, explicit-disconnect latch
clear, and no in-memory token. -/
def autoSignCondition (conn providerPresent : Bool) (addr : Option String)
    (s : SessState) : Bool :=
  conn && !s.isSigned && providerPresent && addr.isSome
    && !s.userDisconnected && s.authToken.isNone

/-- The disconnect-observing effect (source lines 197-208): when the wallet
is disconnected and the latch is set (explicit disconnect), purge the stored
token and clear signed flag, token and user; when disconnected without the
latch (incidental disconnect) only the latch is (re)set to false and the
session fields and store are kept. -/
def disconnectEffect (conn : Bool) (s : SessState) : SessState :=
  if !conn && s.userDisconnected then
    { s with store := none, isSigned := false, authToken := none, user := none }
  else if !conn && !s.userDisconnected then
    { s with userDisconnected := false }
  else s

/-- `handleConnect` (source lines 210-214): clear the signed flag, reset the
latch, open the wallet modal. -/
def handleConnect (s : SessState) : SessState :=
  { s with isSigned := false, userDisconnected := false }

/-- Result of `handleDisconnect`: new state plus whether the AppKit
`disconnect()` call was issued. -/
structure DisconnectResult where
  state : SessState
  appKitDisconnectRequested : Bool
deriving DecidableEq, Repr

/-- `handleDisconnect` (source lines 216-225): remove the stored token,
clear signed flag, user and token, set the explicit-disconnect latch and
request the wallet-provider disconnect. -/
def handleDisconnect (s : SessState) : DisconnectResult :=
  ⟨{ s with store := none, isSigned := false, user := none, authToken := none,
            userDisconnected := true }, true⟩

/-- The four Session Guard states named in the design. -/
inductive GuardPhase where
  | Disconnected
  | ConnectedUnauthenticated
  | Authenticating
  | Authenticated
deriving DecidableEq, Repr

/-- The guard state as observed by the render logic: disconnected shows the
connect button, `isLoading` shows the signature prompt (Authenticating),
`isSigned` shows the authenticated view, otherwise waiting for signature
(ConnectedUnauthenticated). -/
def phase (conn : Bool) (s : SessState) : GuardPhase :=
  if !conn then .Disconnected
  else if s.isLoading then .Authenticating
  else if s.isSigned then .Authenticated
  else .ConnectedUnauthenticated

/-- The component state of the simplified variant (part two of the source):
`isSigned`, `isLoading`, `balance`, the explicit-disconnect latch and the
localStorage contents (an association list of key/value pairs). -/
structure SimpleState where
  isSigned : Bool
  isLoading : Bool
  balance : Option Nat
  userDisconnected : Bool
  store : List (String × String)
deriving DecidableEq, Repr

/-- `localStorage.getItem`. -/
def lsGet (ls : List (String × String)) (k : String) : Option String :=
  (ls.find? (fun p => p.1 == k)).map (fun p => p.2)

/-- `localStorage.setItem` (replaces any previous binding of the key). -/
def lsSet (ls : List (String × String)) (k v : String) : List (String × String) :=
  (k, v) :: ls.filter (fun p => p.1 != k)

/-- `localStorage.removeItem`. -/
def lsRemove (ls : List (String × String)) (k : String) : List (String × String) :=
  ls.filter (fun p => p.1 != k)

/-- The localStorage key of the simplified variant: `wallet_signed_<address>`. -/
def signedKey (a : String) : String :=
  "wallet_signed_" ++ a

/-- The simplified variant's disconnect-observing effect (its lines 90-100):
whenever the wallet is not connected it removes the `wallet_signed_<address>`
flag (when an address is still available) and clears the signed flag — the
explicit-disconnect latch is not consulted; while connected it resets the
latch. -/
def simpleDisconnectEffect (conn : Bool) (addr : Option String)
    (s : SimpleState) : SimpleState :=
  if !conn then
    let ls := match addr with
      | some a => lsRemove s.store (signedKey a)
      | none => s.store
    { s with store := ls, isSigned := false }
  else
    { s with userDisconnected := false }

/-- The simplified variant's `handleDisconnect` (its lines 108-116): remove
the per-address flag, clear the signed flag, set the latch, request the
AppKit disconnect. -/
def simpleHandleDisconnect (addr : Option String) (s : SimpleState) :
    SimpleState × Bool :=
  let ls := match addr with
    | some a => lsRemove s.store (signedKey a)
    | none => s.store
  ({ s with store := ls, isSigned := false, userDisconnected := true }, true)

/-- Result of one run of the simplified variant's `handleSignMessage`: new
state, number of signature requests, and whether `provider.disconnect()` was
invoked. -/
structure SimpleSignResult where
  state : SimpleState
  signAttempts : Nat
  providerDisconnectCalled : Bool
deriving DecidableEq, Repr

/-- The simplified variant's `handleSignMessage` (its lines 48-77): no
backend round-trip — a returned signature immediately marks signed and
stores the `"true"` flag under `wallet_signed_<address>`; a rejection lands
in the catch block which attempts `provider.disconnect()` when available. -/
def simpleHandleSignMessage (providerPresent providerHasDisconnect : Bool)
    (addr : Option String) (signO : SignOutcome) (s : SimpleState) :
    SimpleSignResult :=
  if !providerPresent then ⟨s, 0, false⟩
  else
    match addr with
    | none => ⟨s, 0, false⟩
    | some a =>
      match signO with
      | .rejectedByUser =>
        ⟨{ s with isLoading := false }, 1, providerHasDisconnect⟩
      | .signed _ =>
        ⟨{ s with isSigned := true, isLoading := false,
                  store := lsSet s.store (signedKey a) "true" }, 1, false⟩

/-- A configuration of the credential-verified Session Guard: the wallet
connection status and address reported by AppKit, plus the component state. -/
structure Config where
  conn : Bool
  addr : Option String
  sess : SessState
deriving DecidableEq, Repr

/-- The external events driving the Session Guard.  Each event carries the
oracle outcomes of the asynchronous calls its handlers make. -/
inductive Event where
  | connectClick
  | connected (newAddr : Option String) (who : WhoAmIResult)
  | addrChanged (newAddr : Option String) (who : WhoAmIResult)
  | mountVerify (who : WhoAmIResult)
  | autoSignFire (providerPresent providerHasDisconnect : Bool) (now : String)
      (signO : SignOutcome) (verO : VerifyOutcome)
  | providerDisconnected
  | userDisconnectClick
deriving Repr

/-- One step of the guard: the event's handler runs, followed by the
reactive address-drift check (whose dependency array re-fires it after every
state or address change). -/
def stepEvent (c : Config) (e : Event) : Config :=
  match e with
  | .connectClick =>
    ⟨c.conn, c.addr, driftCheck c.conn c.addr (handleConnect c.sess)⟩
  | .connected na who =>
    ⟨true, na, driftCheck true na (verifySession true na who c.sess)⟩
  | .addrChanged na who =>
    ⟨c.conn, na, driftCheck c.conn na (verifySession c.conn na who c.sess)⟩
  | .mountVerify who =>
    ⟨c.conn, c.addr, driftCheck c.conn c.addr (verifySession c.conn c.addr who c.sess)⟩
  | .autoSignFire pp phd now signO verO =>
    let s := if autoSignCondition c.conn pp c.addr c.sess
      then (handleSignMessage pp phd c.addr now signO verO c.sess).state
      else c.sess
    ⟨c.conn, c.addr, driftCheck c.conn c.addr s⟩
  | .providerDisconnected =>
    ⟨false, none, driftCheck false none (disconnectEffect false c.sess)⟩
  | .userDisconnectClick =>
    ⟨c.conn, c.addr, driftCheck c.conn c.addr (handleDisconnect c.sess).state⟩

/-- The initial configuration: disconnected, no address, empty component
state except that `authToken` is initialised from the sessionStorage slot
(source lines 24-27), which may hold a token from a previous page in the
same tab. -/
def initConfig (tok0 : Option String) : Config :=
  ⟨false, none,
   { isSigned := false, isLoading := false, balance := none, user := none,
     authToken := tok0, store := tok0, userDisconnected := false }⟩

/-- Configurations reachable by some sequence of events. -/
inductive Reachable : Config → Prop where
  | init (tok0 : Option String) : Reachable (initConfig tok0)
  | step (c : Config) (e : Event) : Reachable c → Reachable (stepEvent c e)

/-- The session invariant exactly as the spec states it: whenever the signed
flag is true, the in-memory credential is non-null and the user record's
wallet address equals the connected address, case-insensitively. -/
def claimInv (c : Config) : Prop :=
  c.sess.isSigned = true →
    c.sess.authToken.isSome = true ∧
    ∃ a u, c.addr = some a ∧ c.sess.user = some u ∧
      lowerEq a u.walletAddress = true

/-- The invariant restricted to connected configurations: whenever the
signed flag is true, the credential is non-null, a user record is present,
and while the wallet is connected with an address that record's wallet
address matches it case-insensitively. -/
def connInv (c : Config) : Prop :=
  c.sess.isSigned = true →
    c.sess.authToken.isSome = true ∧
    ∃ u, c.sess.user = some u ∧
      (c.conn = true → ∀ a, c.addr = some a → lowerEq a u.walletAddress = true)

/-- The state-only part of the invariant: signed implies a token and a user
record are in memory. -/
def auxInv (s : SessState) : Prop :=
  s.isSigned = true → s.authToken.isSome = true ∧ s.user.isSome = true

/-- A concrete user record for address `X`, used in concrete scenarios. -/
def userX : UserRecord :=
  ⟨"X", "2024-01-01", "2024-06-01", false⟩

/-- Connect with address `X`, authenticate via the signing protocol, then
suffer an incidental provider-side disconnect. -/
def cexTrace : List Event :=
  [ .connectClick,
    .connected (some "X") .notOk,
    .autoSignFire true true "2024-06-01T00:00:00.000Z" (.signed [1, 2, 3])
      (.success "tok" userX),
    .providerDisconnected ]

/-- The configuration reached by `cexTrace`. -/
def cexConfig : Config :=
  cexTrace.foldl stepEvent (initConfig none)

/-- Connect with address `X` and authenticate via the signing protocol. -/
def authTrace : List Event :=
  [ .connectClick,
    .connected (some "X") .notOk,
    .autoSignFire true true "2024-06-01T00:00:00.000Z" (.signed [1, 2, 3])
      (.success "tok" userX) ]

/-- The configuration reached by `authTrace`. -/
def authConfig : Config :=
  authTrace.foldl stepEvent (initConfig none)

/-- An empty component state. -/
def sess0 : SessState :=
  ⟨false, false, none, none, none, none, false⟩

/-- A freshly mounted component state holding a stored token (the in-memory
token is initialised from the store, source lines 24-27). -/
def sessWithToken : SessState :=
  ⟨false, false, none, none, some "tok", some "tok", false⟩

/-- An authenticated component state for address `X`. -/
def sessAuthX : SessState :=
  ⟨true, false, some 5, some userX, some "tok", some "tok", false⟩

/-- A simplified-variant state holding the signed flag for address `X`,
with the explicit-disconnect latch clear. -/
def simpleStored : SimpleState :=
  ⟨false, false, none, false, [(signedKey "X", "true")]⟩

theorem lsGet_lsRemove (ls : List (String × String)) (k : String) :
    lsGet (lsRemove ls k) k = none := by
  unfold lsGet lsRemove
  rw [Option.map_eq_none', List.find?_eq_none]
  intro x hx
  have hne := List.of_mem_filter hx
  simp_all

theorem verifySession_auxInv (conn : Bool) (addr : Option String)
    (who : WhoAmIResult) (s : SessState) (h : auxInv s) :
    auxInv (verifySession conn addr who s) := by
  unfold auxInv verifySession at *
  repeat' split
  all_goals simp_all

theorem driftCheck_auxInv (conn : Bool) (addr : Option String) (s : SessState)
    (h : auxInv s) : auxInv (driftCheck conn addr s) := by
  unfold auxInv driftCheck at *
  repeat' split
  all_goals simp_all

theorem handleConnect_auxInv (s : SessState) :
    auxInv (handleConnect s) := by
  intro hs
  exact absurd hs (by simp [handleConnect])

theorem handleSignMessage_auxInv (pp phd : Bool) (addr : Option String)
    (now : String) (signO : SignOutcome) (verO : VerifyOutcome) (s : SessState)
    (h : auxInv s) :
    auxInv (handleSignMessage pp phd addr now signO verO s).state := by
  unfold auxInv handleSignMessage at *
  repeat' split
  all_goals simp_all

theorem disconnectEffect_auxInv (conn : Bool) (s : SessState) (h : auxInv s) :
    auxInv (disconnectEffect conn s) := by
  unfold auxInv disconnectEffect at *
  repeat' split
  all_goals simp_all

theorem handleDisconnect_auxInv (s : SessState) :
    auxInv (handleDisconnect s).state := by
  intro hs
  exact absurd hs (by simp [handleDisconnect])

theorem driftCheck_connInv (conn : Bool) (addr : Option String) (s : SessState)
    (h : auxInv s) : connInv ⟨conn, addr, driftCheck conn addr s⟩ := by
  cases addr with
  | none =>
    intro hs
    have hs' : s.isSigned = true := hs
    obtain ⟨ht, hu⟩ := h hs'
    obtain ⟨u, hu'⟩ := Option.isSome_iff_exists.mp hu
    exact ⟨ht, u, hu', fun _ a ha => nomatch ha⟩
  | some a =>
    rcases hu : s.user with _ | u
    · intro hs
      have hs' : s.isSigned = true := by
        simpa [driftCheck, hu] using hs
      obtain ⟨-, husome⟩ := h hs'
      rw [hu] at husome
      exact absurd husome (by simp)
    · by_cases hg : (conn && s.isSigned) = true
      · by_cases hl : lowerEq a u.walletAddress = true
        · intro hs
          have hs' : s.isSigned = true := by
            simpa [driftCheck, hu, hg, hl] using hs
          obtain ⟨ht, -⟩ := h hs'
          refine ⟨by simpa [driftCheck, hu, hg, hl] using ht, u,
            by simpa [driftCheck, hu, hg, hl] using hu, ?_⟩
          intro _ a' ha'
          have : a = a' := by simpa [driftCheck] using ha'
          exact this ▸ hl
        · intro hs
          have : (driftCheck conn (some a) s).isSigned = false := by
            simp [driftCheck, hu, hg, hl]
          exact absurd (this ▸ hs) (by simp_all)
      · intro hs
        have hs' : s.isSigned = true := by
          simpa [driftCheck, hu, hg] using hs
        obtain ⟨ht, -⟩ := h hs'
        have hconn : conn = false := by
          simp [hs'] at hg
          exact hg
        refine ⟨by simpa [driftCheck, hu, hg] using ht, u,
          by simpa [driftCheck, hu, hg] using hu, ?_⟩
        intro hcT
        have : (⟨conn, some a, driftCheck conn (some a) s⟩ : Config).conn = conn := rfl
        rw [this] at hcT
        exact absurd hcT (by simp [hconn])

example : lowerEq "AbC" "aBc" = true := by decide

/-- Claim C1 (amended): after every transition of the Session Guard, whenever
the signed flag is true the in-memory credential is non-null and a user
record is present, and while the wallet is connected with an address that
record's wallet address equals the connected address case-insensitively.
(The unrestricted form of the claim — the user record's address equals the
connected address whenever the signed flag is true — fails, because an
incidental provider disconnect leaves the signed flag set while no address
is connected; see the counterexample.) -/
theorem claim1_signed_invariant_while_connected
    (c : Config) (hc : Reachable c) : connInv c := by
  induction hc with
  | init tok0 =>
    intro hs
    exact absurd hs (by simp [initConfig])
  | step c e hprev ih =>
    have haux : auxInv c.sess := by
      intro hs
      obtain ⟨ht, u, hu, -⟩ := ih hs
      exact ⟨ht, by simp [hu]⟩
    cases e with
    | connectClick =>
      exact driftCheck_connInv _ _ _ (handleConnect_auxInv _)
    | connected na who =>
      exact driftCheck_connInv _ _ _ (verifySession_auxInv _ _ _ _ haux)
    | addrChanged na who =>
      exact driftCheck_connInv _ _ _ (verifySession_auxInv _ _ _ _ haux)
    | mountVerify who =>
      exact driftCheck_connInv _ _ _ (verifySession_auxInv _ _ _ _ haux)
    | autoSignFire pp phd now signO verO =>
      refine driftCheck_connInv _ _ _ ?_
      split
      · exact handleSignMessage_auxInv _ _ _ _ _ _ _ haux
      · exact haux
    | providerDisconnected =>
      exact driftCheck_connInv _ _ _ (disconnectEffect_auxInv _ _ haux)
    | userDisconnectClick =>
      exact driftCheck_connInv _ _ _ (handleDisconnect_auxInv _)

/-- Claim C1 witness: the invariant holds at the concrete reachable
configuration in which address `X` has just authenticated. -/
theorem claim1_witness : connInv authConfig :=
  claim1_signed_invariant_while_connected authConfig
    (Reachable.step _ (.autoSignFire true true "2024-06-01T00:00:00.000Z"
        (.signed [1, 2, 3]) (.success "tok" userX))
      (Reachable.step _ (.connected (some "X") .notOk)
        (Reachable.step _ .connectClick (Reachable.init none))))

/-- Claim C1 counterexample: the invariant exactly as the claim states it
fails at a reachable configuration — after connecting with address `X`,
authenticating, and then suffering an incidental provider disconnect, the
signed flag is still true but there is no connected address for the user
record to match. -/
theorem claim1_counterexample :
    Reachable cexConfig ∧ ¬ claimInv cexConfig := by
  constructor
  · exact Reachable.step _ .providerDisconnected
      (Reachable.step _ (.autoSignFire true true "2024-06-01T00:00:00.000Z"
          (.signed [1, 2, 3]) (.success "tok" userX))
        (Reachable.step _ (.connected (some "X") .notOk)
          (Reachable.step _ .connectClick (Reachable.init none))))
  · intro h
    obtain ⟨-, a, u, ha, -⟩ := h (by decide)
    have haddr : cexConfig.addr = none := by decide
    rw [haddr] at ha
    exact absurd ha (by simp)

/-- Claim C2: on mount/reconnect with a stored credential, the wallet
connected under a matching address (case-insensitively), the
explicit-disconnect latch clear and a successful `whoAmI` response, the
guard adopts the record and becomes Authenticated, retains the stored
credential in the store and in memory, and the automatic-sign effect's guard
is false both after this revalidation (the signed flag is set) and already
beforehand (the in-memory token initialised from the store blocks it), so
the signing protocol is never invoked. -/
theorem claim2_fast_path_reaches_authenticated_without_signing
    (s : SessState) (conn pp pp' : Bool) (a tok : String) (u : UserRecord)
    (hstore : s.store = some tok) (hlatch : s.userDisconnected = false)
    (hload : s.isLoading = false) (hmatch : lowerEq u.walletAddress a = true) :
    (verifySession true (some a) (.ok u) s).isSigned = true ∧
    (verifySession true (some a) (.ok u) s).authToken = some tok ∧
    (verifySession true (some a) (.ok u) s).store = some tok ∧
    (verifySession true (some a) (.ok u) s).user = some u ∧
    phase true (verifySession true (some a) (.ok u) s) = .Authenticated ∧
    autoSignCondition true pp (some a) (verifySession true (some a) (.ok u) s)
      = false ∧
    (s.authToken.isSome = true → autoSignCondition conn pp' (some a) s = false) := by
  unfold verifySession autoSignCondition phase
  simp [hstore, hlatch, hload, hmatch]
  intro h _ _ _
  exact h

/-- Claim C2 witness: the fast path at a concrete freshly mounted state with
a stored token for address `X`. -/
theorem claim2_witness :
    (verifySession true (some "X") (.ok userX) sessWithToken).isSigned = true ∧
    (verifySession true (some "X") (.ok userX) sessWithToken).authToken = some "tok" ∧
    (verifySession true (some "X") (.ok userX) sessWithToken).store = some "tok" ∧
    (verifySession true (some "X") (.ok userX) sessWithToken).user = some userX ∧
    phase true (verifySession true (some "X") (.ok userX) sessWithToken)
      = .Authenticated ∧
    autoSignCondition true true (some "X")
      (verifySession true (some "X") (.ok userX) sessWithToken) = false ∧
    (sessWithToken.authToken.isSome = true →
      autoSignCondition true true (some "X") sessWithToken = false) :=
  claim2_fast_path_reaches_authenticated_without_signing sessWithToken true true
    true "X" "tok" userX rfl rfl rfl (by decide)

/-- Claim C3 (amended): an incidental (non-explicit) provider disconnect
leaves the sessionStorage credential slot unchanged in the
credential-verified variant; in the simplified variant the disconnect effect
does not consult the explicit-disconnect latch and removes the per-address
flag whenever it observes a disconnect with a still-defined address, so the
slot is preserved there only when the address is already cleared. -/
theorem claim3_incidental_disconnect_store_effects
    (s : SessState) (t : SimpleState) (a : String)
    (hlatch : s.userDisconnected = false) :
    (disconnectEffect false s).store = s.store ∧
    (simpleDisconnectEffect false none t).store = t.store ∧
    lsGet (simpleDisconnectEffect false (some a) t).store (signedKey a) = none := by
  refine ⟨?_, ?_, ?_⟩
  · simp [disconnectEffect, hlatch]
  · simp [simpleDisconnectEffect]
  · simp [simpleDisconnectEffect, lsGet_lsRemove]

/-- Claim C3 witness: a concrete incidental disconnect in the
credential-verified variant preserves the stored token; in the simplified
variant the flag for `X` is removed when the address is still visible. -/
theorem claim3_witness :
    sessAuthX.userDisconnected = false ∧
    (disconnectEffect false sessAuthX).store = sessAuthX.store ∧
    (simpleDisconnectEffect false none simpleStored).store = simpleStored.store ∧
    lsGet (simpleDisconnectEffect false (some "X") simpleStored).store
      (signedKey "X") = none :=
  ⟨by decide,
   (claim3_incidental_disconnect_store_effects sessAuthX simpleStored "X"
     (by decide)).1,
   (claim3_incidental_disconnect_store_effects sessAuthX simpleStored "X"
     (by decide)).2.1,
   (claim3_incidental_disconnect_store_effects sessAuthX simpleStored "X"
     (by decide)).2.2⟩

/-- Claim C3 counterexample: in the simplified variant, a provider-side
disconnect with the explicit-disconnect latch clear (the user never clicked
disconnect) removes the previously stored flag for address `X`, so the
stored credential slot is not left unchanged in both variants. -/
theorem claim3_counterexample :
    simpleStored.userDisconnected = false ∧
    lsGet simpleStored.store (signedKey "X") = some "true" ∧
    lsGet (simpleDisconnectEffect false (some "X") simpleStored).store
      (signedKey "X") = none := by
  decide

/-- Claim C4: from any prior state, the explicit disconnect handler leaves
the credential slot absent, sets the explicit-disconnect latch, clears the
signed flag, user record and in-memory credential, and issues the
wallet-provider disconnect request; likewise in the simplified variant the
per-address flag is absent afterwards, the latch is set and the disconnect
request issued. -/
theorem claim4_explicit_disconnect_clears_everything
    (s : SessState) (t : SimpleState) (a : String) :
    (handleDisconnect s).state.store = none ∧
    (handleDisconnect s).state.isSigned = false ∧
    (handleDisconnect s).state.user = none ∧
    (handleDisconnect s).state.authToken = none ∧
    (handleDisconnect s).state.userDisconnected = true ∧
    (handleDisconnect s).appKitDisconnectRequested = true ∧
    lsGet (simpleHandleDisconnect (some a) t).1.store (signedKey a) = none ∧
    (simpleHandleDisconnect (some a) t).1.isSigned = false ∧
    (simpleHandleDisconnect (some a) t).1.userDisconnected = true ∧
    (simpleHandleDisconnect (some a) t).2 = true := by
  simp [handleDisconnect, simpleHandleDisconnect, lsGet_lsRemove]

/-- Claim C5: in a run of the signing protocol from an unauthenticated
connected state, the Session Store is written exactly when the verify
response is explicitly marked successful; on explicit backend rejection and
on a thrown network/parse failure the store and in-memory token are
unchanged and the state is ConnectedUnauthenticated, and when the signature
itself is rejected no verify request is even submitted and the store is
unchanged. -/
theorem claim5_store_written_iff_verify_success
    (phd : Bool) (a now tok m : String) (sig : List Nat) (u : UserRecord)
    (verO : VerifyOutcome) (s : SessState)
    (hsgn : s.isSigned = false) :
    ((handleSignMessage true phd (some a) now (.signed sig) (.success tok u) s).state.store
      = some tok ∧
     (handleSignMessage true phd (some a) now (.signed sig) (.success tok u) s).state.isSigned
      = true) ∧
    ((handleSignMessage true phd (some a) now (.signed sig) (.rejected m) s).state.store
      = s.store ∧
     (handleSignMessage true phd (some a) now (.signed sig) (.rejected m) s).state.authToken
      = s.authToken ∧
     phase true (handleSignMessage true phd (some a) now (.signed sig) (.rejected m) s).state
      = .ConnectedUnauthenticated) ∧
    ((handleSignMessage true phd (some a) now (.signed sig) .thrown s).state.store
      = s.store ∧
     (handleSignMessage true phd (some a) now (.signed sig) .thrown s).state.authToken
      = s.authToken ∧
     phase true (handleSignMessage true phd (some a) now (.signed sig) .thrown s).state
      = .ConnectedUnauthenticated) ∧
    ((handleSignMessage true phd (some a) now .rejectedByUser verO s).state.store
      = s.store ∧
     (handleSignMessage true phd (some a) now .rejectedByUser verO s).request = none ∧
     phase true (handleSignMessage true phd (some a) now .rejectedByUser verO s).state
      = .ConnectedUnauthenticated) := by
  unfold handleSignMessage phase
  simp [hsgn]

/-- Claim C5 witness: the four outcomes at a concrete empty connected
state. -/
theorem claim5_witness :
    ((handleSignMessage true true (some "X") "T" (.signed [1]) (.success "tok" userX) sess0).state.store
      = some "tok" ∧
     (handleSignMessage true true (some "X") "T" (.signed [1]) (.success "tok" userX) sess0).state.isSigned
      = true) ∧
    ((handleSignMessage true true (some "X") "T" (.signed [1]) (.rejected "bad") sess0).state.store
      = sess0.store ∧
     (handleSignMessage true true (some "X") "T" (.signed [1]) (.rejected "bad") sess0).state.authToken
      = sess0.authToken ∧
     phase true (handleSignMessage true true (some "X") "T" (.signed [1]) (.rejected "bad") sess0).state
      = .ConnectedUnauthenticated) ∧
    ((handleSignMessage true true (some "X") "T" (.signed [1]) .thrown sess0).state.store
      = sess0.store ∧
     (handleSignMessage true true (some "X") "T" (.signed [1]) .thrown sess0).state.authToken
      = sess0.authToken ∧
     phase true (handleSignMessage true true (some "X") "T" (.signed [1]) .thrown sess0).state
      = .ConnectedUnauthenticated) ∧
    ((handleSignMessage true true (some "X") "T" .rejectedByUser .thrown sess0).state.store
      = sess0.store ∧
     (handleSignMessage true true (some "X") "T" .rejectedByUser .thrown sess0).request = none ∧
     phase true (handleSignMessage true true (some "X") "T" .rejectedByUser .thrown sess0).state
      = .ConnectedUnauthenticated) :=
  claim5_store_written_iff_verify_success true "X" "T" "tok" "bad" [1] userX
    .thrown sess0 rfl

/-- Claim C6: when the mount revalidation gets a non-OK `whoAmI` response,
or an OK response whose record mismatches the connected address, the stored
credential is removed, the in-memory token, signed flag and user record are
cleared, and the resulting state is ConnectedUnauthenticated. -/
theorem claim6_stale_credential_purged
    (a tok : String) (u : UserRecord) (s : SessState)
    (hstore : s.store = some tok) (hlatch : s.userDisconnected = false)
    (hload : s.isLoading = false)
    (hmm : lowerEq u.walletAddress a = false) :
    ((verifySession true (some a) .notOk s).store = none ∧
     (verifySession true (some a) .notOk s).authToken = none ∧
     (verifySession true (some a) .notOk s).isSigned = false ∧
     (verifySession true (some a) .notOk s).user = none ∧
     phase true (verifySession true (some a) .notOk s)
      = .ConnectedUnauthenticated) ∧
    ((verifySession true (some a) (.ok u) s).store = none ∧
     (verifySession true (some a) (.ok u) s).authToken = none ∧
     (verifySession true (some a) (.ok u) s).isSigned = false ∧
     (verifySession true (some a) (.ok u) s).user = none ∧
     phase true (verifySession true (some a) (.ok u) s)
      = .ConnectedUnauthenticated) := by
  unfold verifySession phase
  simp [hstore, hlatch, hload, hmm]

/-- Claim C6 witness: revalidation for connected address `Y` against a
stored token whose record belongs to `X`. -/
theorem claim6_witness :
    ((verifySession true (some "Y") .notOk sessWithToken).store = none ∧
     (verifySession true (some "Y") .notOk sessWithToken).authToken = none ∧
     (verifySession true (some "Y") .notOk sessWithToken).isSigned = false ∧
     (verifySession true (some "Y") .notOk sessWithToken).user = none ∧
     phase true (verifySession true (some "Y") .notOk sessWithToken)
      = .ConnectedUnauthenticated) ∧
    ((verifySession true (some "Y") (.ok userX) sessWithToken).store = none ∧
     (verifySession true (some "Y") (.ok userX) sessWithToken).authToken = none ∧
     (verifySession true (some "Y") (.ok userX) sessWithToken).isSigned = false ∧
     (verifySession true (some "Y") (.ok userX) sessWithToken).user = none ∧
     phase true (verifySession true (some "Y") (.ok userX) sessWithToken)
      = .ConnectedUnauthenticated) :=
  claim6_stale_credential_purged "Y" "tok" userX sessWithToken rfl rfl rfl
    (by decide)

/-- Claim C7: while connected and authenticated, the moment the connected
address no longer matches the authenticated record's address
(case-insensitively), the drift check deletes the stored credential, clears
the in-memory token, signed flag, user record and cached balance, and the
state re-enters ConnectedUnauthenticated. -/
theorem claim7_address_drift_purges
    (a : String) (u : UserRecord) (s : SessState)
    (hsig : s.isSigned = true) (huser : s.user = some u)
    (hload : s.isLoading = false)
    (hmm : lowerEq a u.walletAddress = false) :
    (driftCheck true (some a) s).store = none ∧
    (driftCheck true (some a) s).authToken = none ∧
    (driftCheck true (some a) s).isSigned = false ∧
    (driftCheck true (some a) s).user = none ∧
    (driftCheck true (some a) s).balance = none ∧
    phase true (driftCheck true (some a) s) = .ConnectedUnauthenticated := by
  unfold driftCheck phase
  simp [hsig, huser, hmm, hload]

/-- Claim C7 witness: the drift check at a concrete authenticated state for
`X` whose connected address has become `Z`. -/
theorem claim7_witness :
    (driftCheck true (some "Z") sessAuthX).store = none ∧
    (driftCheck true (some "Z") sessAuthX).authToken = none ∧
    (driftCheck true (some "Z") sessAuthX).isSigned = false ∧
    (driftCheck true (some "Z") sessAuthX).user = none ∧
    (driftCheck true (some "Z") sessAuthX).balance = none ∧
    phase true (driftCheck true (some "Z") sessAuthX) = .ConnectedUnauthenticated :=
  claim7_address_drift_purges "Z" userX sessAuthX rfl rfl rfl (by decide)

/-- Claim C8: when the user rejects the signature request, the signing
handler terminates with the component state unchanged except for the
loading flag (in particular, the Session Store is untouched), exactly one
signature request was made (no automatic retry), no verify request is
submitted, `provider.disconnect()` is invoked exactly when the provider
exposes a disconnect capability, and the state is ConnectedUnauthenticated;
the same holds for the store, attempt count and provider disconnect in the
simplified variant. -/
theorem claim8_signature_rejection_terminates
    (phd : Bool) (a now : String) (verO : VerifyOutcome)
    (s : SessState) (t : SimpleState) (hsgn : s.isSigned = false) :
    (handleSignMessage true phd (some a) now .rejectedByUser verO s).state
      = { s with isLoading := false } ∧
    (handleSignMessage true phd (some a) now .rejectedByUser verO s).signAttempts
      = 1 ∧
    (handleSignMessage true phd (some a) now .rejectedByUser verO s).request
      = none ∧
    (handleSignMessage true phd (some a) now .rejectedByUser verO s).providerDisconnectCalled
      = phd ∧
    phase true (handleSignMessage true phd (some a) now .rejectedByUser verO s).state
      = .ConnectedUnauthenticated ∧
    (simpleHandleSignMessage true phd (some a) .rejectedByUser t).state.store
      = t.store ∧
    (simpleHandleSignMessage true phd (some a) .rejectedByUser t).signAttempts
      = 1 ∧
    (simpleHandleSignMessage true phd (some a) .rejectedByUser t).providerDisconnectCalled
      = phd := by
  unfold handleSignMessage simpleHandleSignMessage phase
  simp [hsgn]

/-- Claim C8 witness: a concrete rejected signature attempt in both
variants, with a provider that exposes a disconnect capability. -/
theorem claim8_witness :
    (handleSignMessage true true (some "X") "T" .rejectedByUser .thrown sess0).state
      = { sess0 with isLoading := false } ∧
    (handleSignMessage true true (some "X") "T" .rejectedByUser .thrown sess0).signAttempts
      = 1 ∧
    (handleSignMessage true true (some "X") "T" .rejectedByUser .thrown sess0).request
      = none ∧
    (handleSignMessage true true (some "X") "T" .rejectedByUser .thrown sess0).providerDisconnectCalled
      = true ∧
    phase true (handleSignMessage true true (some "X") "T" .rejectedByUser .thrown sess0).state
      = .ConnectedUnauthenticated ∧
    (simpleHandleSignMessage true true (some "X") .rejectedByUser simpleStored).state.store
      = simpleStored.store ∧
    (simpleHandleSignMessage true true (some "X") .rejectedByUser simpleStored).signAttempts
      = 1 ∧
    (simpleHandleSignMessage true true (some "X") .rejectedByUser simpleStored).providerDisconnectCalled
      = true :=
  claim8_signature_rejection_terminates true "X" "T" .thrown sess0 simpleStored rfl

/-- Claim C9: in every signing attempt the challenge message literally
embeds the connected wallet address and the timestamp string produced by
`new Date().toISOString()`; the signature is requested over the UTF-8 byte
encoding of exactly that message; and the request submitted to the verify
endpoint is `{walletAddress, message, signature}` with the raw signature
bytes base58-encoded. -/
theorem claim9_challenge_message_and_submission
    (phd : Bool) (a now : String) (sig : List Nat) (verO : VerifyOutcome)
    (s : SessState) :
    (handleSignMessage true phd (some a) now (.signed sig) verO s).signedPayload
      = some (utf8Encode (challengeMessage a now)) ∧
    (handleSignMessage true phd (some a) now (.signed sig) verO s).request
      = some ⟨a, challengeMessage a now, bs58encode sig⟩ ∧
    ∃ p q, challengeMessage a now = p ++ a ++ q ++ now := by
  refine ⟨?_, ?_,
    "Sign this message to authenticate with Solana Wallet Connect.\n\nWallet: ",
    "\nTimestamp: ", ?_⟩
  · unfold handleSignMessage
    cases verO <;> simp
  · unfold handleSignMessage
    cases verO <;> simp
  · simp [challengeMessage, String.append_assoc]

/-- Claim C10: when the mount revalidation's `whoAmI` call throws
(network/transport failure), the stored credential is removed and the signed
flag and in-memory token are cleared but the in-memory user record is left
unchanged, whereas the non-OK-response branch also clears the user record. -/
theorem claim10_thrown_whoami_preserves_user
    (a tok : String) (s : SessState)
    (hstore : s.store = some tok) (hlatch : s.userDisconnected = false) :
    ((verifySession true (some a) .thrown s).store = none ∧
     (verifySession true (some a) .thrown s).authToken = none ∧
     (verifySession true (some a) .thrown s).isSigned = false ∧
     (verifySession true (some a) .thrown s).user = s.user) ∧
    (verifySession true (some a) .notOk s).user = none := by
  unfold verifySession
  simp [hstore, hlatch]

/-- Claim C10 witness: at an authenticated state for `X`, a thrown `whoAmI`
keeps the user record `userX` in memory while a non-OK response clears it. -/
theorem claim10_witness :
    ((verifySession true (some "X") .thrown sessAuthX).store = none ∧
     (verifySession true (some "X") .thrown sessAuthX).authToken = none ∧
     (verifySession true (some "X") .thrown sessAuthX).isSigned = false ∧
     (verifySession true (some "X") .thrown sessAuthX).user = sessAuthX.user) ∧
    (verifySession true (some "X") .notOk sessAuthX).user = none :=
  claim10_thrown_whoami_preserves_user "X" "tok" sessAuthX rfl rfl
example : bs58encode [0, 60, 23, 110] = "1MBgH" := by decide
example :
    challengeMessage "X" "T" =
      "Sign this message to authenticate with Solana Wallet Connect.\n\nWallet: X\nTimestamp: T" := by
  decide
